import Mathlib

/-!
Shallow embedding of the recommendation scoring engine in
`trading_recommendations.py` (class `TradingRecommendationEngine`).

Python floats are modelled as rationals (ℚ); Python dicts holding the
technical report are modelled as structures whose fields are `Option`s
(a missing key is `none`, and `dict.get(k, d)` is `Option.getD`).
Python `None` passed where a dict is expected is modelled by an outer
`Option`; attribute access on `None` (an `AttributeError`) is modelled
by `Except.error`.  The irrational constant `np.sqrt(252)` used by the
stop-loss computation is threaded through as an explicit parameter.
-/

namespace TradingRec

/-- Python `max` on two floats (kept as an `if` so that kernel reduction
works on concrete rationals). -/
def pymax (a b : ℚ) : ℚ := if a ≤ b then b else a

/-- Python `min` on two floats. -/
def pymin (a b : ℚ) : ℚ := if b ≤ a then b else a

/-- Python `max(0, min(100, score))`, the clamp ending every score function. -/
def clamp01 (x : ℚ) : ℚ := pymax 0 (pymin 100 x)

/-- Python `int(x)`: truncation toward zero. -/
def pyInt (x : ℚ) : ℤ := if 0 ≤ x then ⌊x⌋ else ⌈x⌉

/-- The `basic_indicators` sub-dict of the technical report. -/
structure BasicIndicators where
  RSI : Option ℚ
  MACD : Option ℚ
  MACD_Signal : Option ℚ
  Price_vs_SMA20 : Option ℚ
  Price_vs_SMA50 : Option ℚ
deriving DecidableEq

def BasicIndicators.empty : BasicIndicators := ⟨none, none, none, none, none⟩

/-- The `trend_analysis` sub-dict of the technical report. -/
structure TrendAnalysis where
  direction : Option String
  strength : Option ℚ
deriving DecidableEq

def TrendAnalysis.empty : TrendAnalysis := ⟨none, none⟩

/-- The `support_resistance` sub-dict of the technical report. -/
structure SupportResistance where
  current_price : Option ℚ
  resistance_levels : Option (List ℚ)
  support_levels : Option (List ℚ)
deriving DecidableEq

def SupportResistance.empty : SupportResistance := ⟨none, none, none⟩

/-- The `volume_analysis` sub-dict of the technical report. -/
structure VolumeAnalysis where
  volume_trend : Option String
  obv_trend : Option String
  volume_breakout : Option Bool
deriving DecidableEq

def VolumeAnalysis.empty : VolumeAnalysis := ⟨none, none, none⟩

/-- The technical report dict, restricted to the keys the engine reads. -/
structure TechnicalAnalysis where
  basic_indicators : Option BasicIndicators
  trend_analysis : Option TrendAnalysis
  support_resistance : Option SupportResistance
  volume_analysis : Option VolumeAnalysis
deriving DecidableEq

def TechnicalAnalysis.empty : TechnicalAnalysis := ⟨none, none, none, none⟩

/-- Python dict falsiness for the report: `{}` (no keys present) is falsy. -/
def TechnicalAnalysis.isEmpty (t : TechnicalAnalysis) : Bool :=
  t.basic_indicators.isNone && t.trend_analysis.isNone &&
    t.support_resistance.isNone && t.volume_analysis.isNone

/-- RSI block of `_calculate_technical_score` (lines 126-134). -/
def rsi_points (basic : BasicIndicators) : ℚ :=
  let rsi := basic.RSI.getD 50
  if rsi < 30 then 20
  else if rsi > 70 then -20
  else if 40 ≤ rsi ∧ rsi ≤ 60 then 5
  else 0

/-- MACD block of `_calculate_technical_score` (lines 136-143). -/
def macd_points (basic : BasicIndicators) : ℚ :=
  if basic.MACD.getD 0 > basic.MACD_Signal.getD 0 then 15 else -10

/-- Trend block of `_calculate_technical_score` (lines 145-153):
`score += int(strength * 20)` for direction `'up'`, `-=` for `'down'`. -/
def trend_points (trend : TrendAnalysis) : ℚ :=
  let direction := trend.direction.getD "neutral"
  let strength := trend.strength.getD (1/2)
  if direction = "up" then (pyInt (strength * 20) : ℤ)
  else if direction = "down" then -((pyInt (strength * 20) : ℤ) : ℚ)
  else 0

/-- Resistance block of `_calculate_technical_score` (lines 161-167). -/
def resistance_points (sr : SupportResistance) : ℚ :=
  let current_price := sr.current_price.getD 0
  match sr.resistance_levels.getD [] with
  | [] => 0
  | nearest_resistance :: _ =>
    if current_price > 0 then
      let resistance_distance := (nearest_resistance - current_price) / current_price
      if resistance_distance > 5/100 then 10
      else if resistance_distance < 2/100 then -5
      else 0
    else 0

/-- Support block of `_calculate_technical_score` (lines 169-173). -/
def support_points (sr : SupportResistance) : ℚ :=
  let current_price := sr.current_price.getD 0
  match sr.support_levels.getD [] with
  | [] => 0
  | nearest_support :: _ =>
    if current_price > 0 then
      let support_distance := (current_price - nearest_support) / current_price
      if support_distance < 2/100 then 5 else 0
    else 0

/-- The accumulated score of `_calculate_technical_score` before the final
clamp; each `score +=`/`score -=` block only adds a score-independent
amount, so the accumulation is the sum of the per-block contributions. -/
def technical_score_raw (t : TechnicalAnalysis) : ℚ :=
  50 + rsi_points (t.basic_indicators.getD BasicIndicators.empty)
    + macd_points (t.basic_indicators.getD BasicIndicators.empty)
    + trend_points (t.trend_analysis.getD TrendAnalysis.empty)
    + resistance_points (t.support_resistance.getD SupportResistance.empty)
    + support_points (t.support_resistance.getD SupportResistance.empty)

/-- `_calculate_technical_score` (lines 118-175).  `if not technical_analysis`
is true for Python `None` and for `{}`. -/
def calculate_technical_score (t : Option TechnicalAnalysis) : ℚ :=
  match t with
  | none => 50
  | some ta => if ta.isEmpty then 50 else clamp01 (technical_score_raw ta)

/-- One entry of the `ml_predictions` dict. -/
structure MLPrediction where
  predicted_price : Option ℚ
  confidence : Option ℚ
deriving DecidableEq

/-- The `ml_predictions` dict: horizon-in-days keys to prediction entries. -/
def MLDict := List (ℕ × MLPrediction)

def dict_keys (preds : List (ℕ × MLPrediction)) : List ℕ := preds.map Prod.fst

def dict_get (preds : List (ℕ × MLPrediction)) (k : ℕ) : Option MLPrediction :=
  (preds.find? (fun p => p.1 = k)).map Prod.snd

/-- Insertion into an ascending list, for `sorted(ml_predictions.keys())`. -/
def insert_sorted (a : ℕ) : List ℕ → List ℕ
  | [] => [a]
  | b :: rest => if a ≤ b then a :: b :: rest else b :: insert_sorted a rest

/-- Ascending sort, for `sorted(ml_predictions.keys())`. -/
def sort_keys : List ℕ → List ℕ
  | [] => []
  | a :: rest => insert_sorted a (sort_keys rest)

/-- The selection loop of `_calculate_ml_score` (lines 183-186):
`for days in sorted(keys): if days <= horizon: best = preds[days]`. -/
def best_prediction (preds : List (ℕ × MLPrediction)) (horizon : ℕ) :
    Option MLPrediction :=
  (sort_keys (dict_keys preds)).foldl
    (fun best days => if days ≤ horizon then dict_get preds days else best) none

/-- `_calculate_ml_score` (lines 177-203). -/
def calculate_ml_score (preds : List (ℕ × MLPrediction)) (current_price : ℚ)
    (time_horizon_days : ℕ) : ℚ :=
  if preds = [] ∨ current_price ≤ 0 then 50
  else
    match best_prediction preds time_horizon_days with
    | none => 50
    | some bp =>
      let predicted_price := bp.predicted_price.getD current_price
      let expected_return := (predicted_price - current_price) / current_price
      let score := 50 + expected_return * 250
      let confidence := bp.confidence.getD (1/2)
      clamp01 (50 + (score - 50) * confidence)

/-- `Series.pct_change()` followed by `dropna()`: consecutive relative
price changes. -/
def pct_change : List ℚ → List ℚ
  | [] => []
  | [_] => []
  | a :: b :: rest => (b - a) / a :: pct_change (b :: rest)

/-- `Series.tail(n)`: the last `n` elements. -/
def tail_n (n : ℕ) (l : List ℚ) : List ℚ := l.drop (l.length - n)

/-- `Series.mean()` on a nonempty series (pandas yields NaN on an empty
series; theorems below only evaluate this on nonempty windows). -/
def series_mean (l : List ℚ) : ℚ :=
  if l.length = 0 then 0 else l.sum / (l.length : ℚ)

/-- The square of `Series.std()`: the sample variance with `ddof = 1`,
`Σ (x − mean)² / (n − 1)` (pandas yields NaN on a series of fewer than two
points; theorems below only evaluate this on longer series). -/
def sample_variance (l : List ℚ) : ℚ :=
  if l.length ≤ 1 then 0
  else (l.map (fun x => (x - series_mean l) ^ 2)).sum / ((l.length : ℚ) - 1)

/-- `_calculate_momentum_score` (lines 205-237).  A `None` technical report
raises `AttributeError` at `technical_analysis.get(...)` (line 217). -/
def calculate_momentum_score (closes : List ℚ) (t : Option TechnicalAnalysis) :
    Except String ℚ :=
  match t with
  | none => Except.error "AttributeError"
  | some ta =>
    let recent_returns := tail_n 20 (pct_change closes)
    let momentum_20d := series_mean recent_returns
    let score : ℚ := 50 + momentum_20d * 1000
    let volume_analysis := ta.volume_analysis.getD VolumeAnalysis.empty
    let vol_trend := volume_analysis.volume_trend.getD "neutral"
    let score :=
      if vol_trend = "increasing" then score + 10
      else if vol_trend = "decreasing" then score - 5
      else score
    let basic := ta.basic_indicators.getD BasicIndicators.empty
    let price_vs_sma20 := basic.Price_vs_SMA20.getD 0
    let price_vs_sma50 := basic.Price_vs_SMA50.getD 0
    let score :=
      if price_vs_sma20 > 0 ∧ price_vs_sma50 > 0 then score + 15
      else if price_vs_sma20 > 0 then score + 5
      else if price_vs_sma20 < 0 ∧ price_vs_sma50 < 0 then score - 15
      else score
    Except.ok (clamp01 score)

/-- Running products `(1 + returns).cumprod()` (acc is the product so far). -/
def cumprod_from (acc : ℚ) : List ℚ → List ℚ
  | [] => []
  | x :: rest => (acc * x) :: cumprod_from (acc * x) rest

/-- Running maxima continuing from `m`. -/
def running_max_from (m : ℚ) : List ℚ → List ℚ
  | [] => []
  | x :: rest => max m x :: running_max_from (max m x) rest

/-- `Series.expanding().max()`: prefix maxima. -/
def expanding_max : List ℚ → List ℚ
  | [] => []
  | x :: rest => x :: running_max_from x rest

/-- `Series.min()` as an `Option` (pandas yields NaN on an empty series, and
both NaN comparisons in the drawdown block are false, like the `none` case). -/
def list_min : List ℚ → Option ℚ
  | [] => none
  | x :: rest => some (rest.foldl pymin x)

/-- `_calculate_risk_score` (lines 239-268). -/
def calculate_risk_score (volatility sharpe : ℚ) (returns : List ℚ) : ℚ :=
  let score : ℚ := 50
  let score :=
    if volatility < 1/5 then score + 10
    else if volatility > 1/2 then score - 15
    else score
  let score :=
    if sharpe > 1 then score + 20
    else if sharpe > 1/2 then score + 10
    else if sharpe < 0 then score - 20
    else score
  let cumulative_returns := cumprod_from 1 (returns.map (fun r => 1 + r))
  let rolling_max := expanding_max cumulative_returns
  let drawdown := List.zipWith (fun c m => (c - m) / m) cumulative_returns rolling_max
  let score :=
    match list_min drawdown with
    | none => score
    | some max_drawdown =>
      if max_drawdown > -(1/10) then score + 10
      else if max_drawdown < -(3/10) then score - 15
      else score
  clamp01 score

/-- `_calculate_volume_score` (lines 270-297).  A `None` technical report
raises `AttributeError` at `technical_analysis.get(...)` (line 286). -/
def calculate_volume_score (current_volume avg_volume : ℚ)
    (t : Option TechnicalAnalysis) : Except String ℚ :=
  match t with
  | none => Except.error "AttributeError"
  | some ta =>
    let score : ℚ := 50
    let score :=
      if avg_volume > 0 then
        let vr := current_volume / avg_volume
        if vr > 2 then score + 15
        else if vr > 3/2 then score + 10
        else if vr < 1/2 then score - 10
        else score
      else score
    let volume_analysis := ta.volume_analysis.getD VolumeAnalysis.empty
    let score := if volume_analysis.volume_breakout.getD false then score + 20 else score
    let obv_trend := volume_analysis.obv_trend.getD "neutral"
    let score :=
      if obv_trend = "bullish" then score + 10
      else if obv_trend = "bearish" then score - 10
      else score
    Except.ok (clamp01 score)

/-- The five component scores (`scores` dict of `_calculate_scores`). -/
structure Scores where
  technical : ℚ
  ml_prediction : ℚ
  momentum : ℚ
  risk : ℚ
  volume : ℚ
deriving DecidableEq

/-- The fixed `self.weights` (lines 17-23). -/
def weight_technical : ℚ := 35/100

def weight_ml_prediction : ℚ := 25/100

def weight_momentum : ℚ := 20/100

def weight_risk : ℚ := 10/100

def weight_volume : ℚ := 10/100

/-- The weighted sum of lines 302-304. -/
def weighted_score (s : Scores) : ℚ :=
  s.technical * weight_technical + s.ml_prediction * weight_ml_prediction
    + s.momentum * weight_momentum + s.risk * weight_risk
    + s.volume * weight_volume

inductive Action where
  | strong_buy | buy | weak_buy | hold | weak_sell | sell | strong_sell
deriving DecidableEq

inductive Confidence where
  | high | medium_high | medium
deriving DecidableEq

/-- The `action` branch ladder of lines 307-327. -/
def action_of (w : ℚ) : Action :=
  if w ≥ 75 then Action.strong_buy
  else if w ≥ 60 then Action.buy
  else if w ≥ 55 then Action.weak_buy
  else if w ≥ 45 then Action.hold
  else if w ≥ 40 then Action.weak_sell
  else if w ≥ 25 then Action.sell
  else Action.strong_sell

/-- The `confidence` assigned in the same branch ladder (lines 307-327). -/
def confidence_of_branch (w : ℚ) : Confidence :=
  if w ≥ 75 then Confidence.high
  else if w ≥ 60 then Confidence.medium_high
  else if w ≥ 55 then Confidence.medium
  else if w ≥ 45 then Confidence.medium
  else if w ≥ 40 then Confidence.medium
  else if w ≥ 25 then Confidence.medium_high
  else Confidence.high

/-- The `projections` mapping, restricted to the only key the synthesizer
reads: `projections['ensemble']['prices']` (`none` when the `'ensemble'`
method is absent). -/
structure Projections where
  ensemble_prices : Option (List ℚ)
deriving DecidableEq

/-- The `data` dict assembled by `_get_comprehensive_data` (lines 80-91),
as consumed by scoring and synthesis. -/
structure AnalysisData where
  closes : List ℚ
  current_price : ℚ
  current_volume : ℚ
  avg_volume : ℚ
  volatility : ℚ
  sharpe_ratio : ℚ
  returns : List ℚ
  technical_analysis : Option TechnicalAnalysis
  ml_predictions : List (ℕ × MLPrediction)
  projections : Projections

/-- Python `abs(x - y)` on integers, for the `key=lambda x: abs(x - h)`. -/
def nat_dist (a b : ℕ) : ℕ := max a b - min a b

/-- Python `min(keys, key=lambda x: abs(x - horizon))`: first minimizer in
iteration order (line 374). -/
def argmin_abs (keys : List ℕ) (horizon : ℕ) : Option ℕ :=
  match keys with
  | [] => none
  | k :: rest =>
    some (rest.foldl
      (fun best k2 => if nat_dist k2 horizon < nat_dist best horizon then k2 else best) k)

/-- The ML-prediction averaging step of `_calculate_target_price`
(lines 368-377): the running target starts at `current_price` and, when the
predictions dict is non-empty, is averaged with the predicted price of the
key nearest to the horizon. -/
def target_after_ml (data : AnalysisData) (time_horizon_days : ℕ) : ℚ :=
  let current_price := data.current_price
  let target_price := current_price
  match argmin_abs (dict_keys data.ml_predictions) time_horizon_days with
  | none => target_price
  | some best_days =>
    match dict_get data.ml_predictions best_days with
    | none => target_price
    | some p => (target_price + p.predicted_price.getD current_price) / 2

/-- `_calculate_target_price` (lines 363-403). -/
def calculate_target_price (data : AnalysisData) (time_horizon_days : ℕ)
    (w : ℚ) : ℚ :=
  let target_price := target_after_ml data time_horizon_days
  let target_price :=
    match data.projections.ensemble_prices with
    | none => target_price
    | some [] => target_price
    | some prices =>
      let days_available := prices.length
      let target_index := Nat.min (time_horizon_days - 1) (days_available - 1)
      (target_price + prices.getD target_index 0) / 2
  let target_price := target_price * (1 + ((w - 50) / 100) * (1/5))
  match data.technical_analysis with
  | none => target_price
  | some ta =>
    if ta.isEmpty then target_price
    else
      match (ta.support_resistance.getD SupportResistance.empty).resistance_levels.getD [] with
      | [] => target_price
      | nearest_resistance :: _ =>
        if w > 50 then pymin target_price (nearest_resistance * (95/100))
        else target_price

/-- `_calculate_stop_loss` (lines 405-434).  `sqrt252` stands for the
floating-point constant `np.sqrt(252)`; theorems quantify over it. -/
def calculate_stop_loss (sqrt252 : ℚ) (data : AnalysisData) (w : ℚ) : ℚ :=
  let current_price := data.current_price
  let daily_vol := data.volatility / sqrt252
  let vol_stop := current_price * (1 - 2 * daily_vol)
  let support_stop := current_price * (9/10)
  let support_stop :=
    match data.technical_analysis with
    | none => support_stop
    | some ta =>
      if ta.isEmpty then support_stop
      else
        match (ta.support_resistance.getD SupportResistance.empty).support_levels.getD [] with
        | [] => support_stop
        | nearest_support :: _ => nearest_support * (98/100)
  let stop_loss := pymax vol_stop support_stop
  if w > 70 then pymax stop_loss (current_price * (92/100))
  else if w < 30 then pymin stop_loss (current_price * (115/100))
  else stop_loss

/-- The output dict of `_generate_final_recommendation` (lines 348-361),
restricted to the numeric and categorical fields. -/
structure Recommendation where
  action : Action
  confidence : Confidence
  overall_score : ℚ
  component_scores : Scores
  current_price : ℚ
  target_price : ℚ
  stop_loss : ℚ
  risk_reward : ℚ
  time_horizon_days : ℕ
  expected_return : ℚ
deriving DecidableEq

def Action.is_buy_side (a : Action) : Bool :=
  a = Action.strong_buy || a = Action.buy || a = Action.weak_buy

/-- `_generate_final_recommendation` (lines 299-361). -/
def generate_final_recommendation (sqrt252 : ℚ) (scores : Scores)
    (data : AnalysisData) (time_horizon_days : ℕ) : Recommendation :=
  let w := weighted_score scores
  let action := action_of w
  let confidence := confidence_of_branch w
  let current_price := data.current_price
  let target_price := calculate_target_price data time_horizon_days w
  let stop_loss := calculate_stop_loss sqrt252 data w
  let risk_reward :=
    if action.is_buy_side then
      if current_price > stop_loss then
        (target_price - current_price) / (current_price - stop_loss)
      else 0
    else 0
  { action := action
    confidence := confidence
    overall_score := w
    component_scores := scores
    current_price := current_price
    target_price := target_price
    stop_loss := stop_loss
    risk_reward := risk_reward
    time_horizon_days := time_horizon_days
    expected_return :=
      if current_price > 0 then (target_price - current_price) / current_price * 100
      else 0 }

/-- `_calculate_scores` (lines 97-116); propagates the `AttributeError`
raised by the momentum/volume scorers on a `None` technical report. -/
def calculate_scores (data : AnalysisData) (time_horizon_days : ℕ) :
    Except String Scores := do
  let technical := calculate_technical_score data.technical_analysis
  let ml := calculate_ml_score data.ml_predictions data.current_price time_horizon_days
  let momentum ← calculate_momentum_score data.closes data.technical_analysis
  let risk := calculate_risk_score data.volatility data.sharpe_ratio data.returns
  let volume ← calculate_volume_score data.current_volume data.avg_volume data.technical_analysis
  return ⟨technical, ml, momentum, risk, volume⟩

/-- The external collaborators of `_get_comprehensive_data`: the price
history rows (close, volume), the technical analyzer (which may yield
`None`), the per-horizon ML forecaster and the projection chart. -/
structure Env where
  history : List (ℚ × ℚ)
  technical : Option TechnicalAnalysis
  predict : ℕ → Option MLPrediction
  projections : Projections

/-- The ML-prediction gathering loop of lines 60-65: only horizons in the
fixed candidate set that do not exceed the requested horizon are queried
and kept. -/
def build_ml_predictions (env : Env) (time_horizon_days : ℕ) :
    List (ℕ × MLPrediction) :=
  [7, 14, 30, 60, 90].foldl
    (fun acc days =>
      if days ≤ time_horizon_days then
        match env.predict days with
        | some p => acc ++ [(days, p)]
        | none => acc
      else acc) []

/-- The 20-row rolling volume mean of line 73; with fewer than 20 rows
pandas yields NaN, whose `> 0` comparison is false like `0` here. -/
def rolling_avg_volume (volumes : List ℚ) : ℚ :=
  if volumes.length < 20 then 0
  else series_mean (tail_n 20 volumes)

/-- `_get_comprehensive_data` (lines 46-95): `None` when the price history
is empty, otherwise the assembled analysis dict.  Lines 76-78 compute
`volatility = returns.std() * np.sqrt(252)` and
`sharpe = returns.mean() * 252 / volatility if volatility > 0 else 0`;
`np.sqrt` leaves ℚ, so the returns' standard deviation enters as the
parameter `std_returns`, whose defining relation to the history is
`0 ≤ std_returns` and `std_returns ^ 2 = sample_variance returns` (the C3
counterexample certifies this relation for its concrete input), and
`np.sqrt 252` enters as the parameter `sqrt252` as in the stop loss. -/
def get_comprehensive_data (sqrt252 std_returns : ℚ) (env : Env)
    (time_horizon_days : ℕ) : Option AnalysisData :=
  if env.history = [] then none
  else
    let closes := env.history.map Prod.fst
    let volumes := env.history.map Prod.snd
    let returns := pct_change closes
    let volatility := std_returns * sqrt252
    some
      { closes := closes
        current_price := (closes.getLast?).getD 0
        current_volume := (volumes.getLast?).getD 0
        avg_volume := rolling_avg_volume volumes
        volatility := volatility
        sharpe_ratio :=
          if volatility > 0 then series_mean returns * 252 / volatility else 0
        returns := returns
        technical_analysis := env.technical
        ml_predictions := build_ml_predictions env time_horizon_days
        projections := env.projections }

/-- `generate_recommendation` (lines 25-44): `None` when data gathering
fails, and `None` via the blanket `except` when scoring raises. -/
def generate_recommendation (sqrt252 std_returns : ℚ) (env : Env)
    (time_horizon_days : ℕ) : Option Recommendation :=
  match get_comprehensive_data sqrt252 std_returns env time_horizon_days with
  | none => none
  | some data =>
    match calculate_scores data time_horizon_days with
    | Except.error _ => none
    | Except.ok scores =>
      some (generate_final_recommendation sqrt252 scores data time_horizon_days)

/-! Basic facts about the clamp. -/

theorem clamp01_nonneg (x : ℚ) : 0 ≤ clamp01 x := by
  unfold clamp01 pymax pymin
  split_ifs <;> linarith

theorem clamp01_le_100 (x : ℚ) : clamp01 x ≤ 100 := by
  unfold clamp01 pymax pymin
  split_ifs <;> linarith

/-! Flat-series lemmas for the momentum scorer. -/

theorem pct_change_replicate (p : ℚ) :
    ∀ n, pct_change (List.replicate n p) = List.replicate (n - 1) 0 := by
  intro n
  induction n with
  | zero => rfl
  | succ m ih =>
    cases m with
    | zero => rfl
    | succ k =>
      have hk : pct_change (List.replicate (k + 1) p) = List.replicate k 0 := by
        simpa using ih
      show pct_change (p :: p :: List.replicate k p) = List.replicate (k + 1) 0
      rw [List.replicate_succ]
      simp only [pct_change]
      rw [show p :: List.replicate k p = List.replicate (k + 1) p from (List.replicate_succ p k).symm, hk]
      simp

theorem series_mean_replicate_zero (k : ℕ) :
    series_mean (List.replicate k 0) = 0 := by
  simp [series_mean, List.sum_replicate]

/-- C10: a technical report that is present but whose sub-mappings are all
empty scores exactly 45 (default RSI 50 earns +5, default MACD tie takes the
bearish branch for -10), not the fully-neutral 50 that a missing report
yields. -/
theorem c10_partial_report :
    calculate_technical_score (some ⟨some BasicIndicators.empty, none, none, none⟩) = 45 ∧
    calculate_technical_score none = 50 := by
  constructor
  · norm_num [calculate_technical_score, TechnicalAnalysis.isEmpty,
      technical_score_raw, rsi_points, macd_points, trend_points,
      resistance_points, support_points, BasicIndicators.empty,
      TrendAnalysis.empty, SupportResistance.empty, pyInt, clamp01, pymax, pymin]
    simp <;> norm_num
  · rfl

/-- C4 counterexample: `risk_score(0, 0, [])` is not 50 (it is 60: zero
volatility takes the low-volatility +10 branch). -/
theorem c4_counterexample : calculate_risk_score 0 0 [] ≠ 50 := by
  norm_num [calculate_risk_score, cumprod_from, expanding_max, list_min,
    clamp01, pymax, pymin]

/-- C4 amended: the neutral-input calls return exactly 50 for the technical,
ML, momentum and volume scorers, but `risk_score(0, 0, [])` returns 60,
because volatility 0 falls in the low-volatility branch (+10) while the
empty return series leaves the Sharpe and drawdown adjustments inert. -/
theorem c4_amended :
    calculate_technical_score (some TechnicalAnalysis.empty) = 50 ∧
    (∀ (p : ℚ) (h : ℕ), calculate_ml_score [] p h = 50) ∧
    (∀ (n : ℕ) (p : ℚ), 2 ≤ n → 0 < p →
      calculate_momentum_score (List.replicate n p) (some TechnicalAnalysis.empty)
        = Except.ok 50) ∧
    calculate_risk_score 0 0 [] = 60 ∧
    calculate_volume_score 0 0 (some TechnicalAnalysis.empty) = Except.ok 50 := by
  refine ⟨?_, ?_, ?_, ?_, ?_⟩
  · simp [calculate_technical_score, TechnicalAnalysis.empty, TechnicalAnalysis.isEmpty]
  · intro p h
    simp [calculate_ml_score]
  · intro n p _ _
    simp only [calculate_momentum_score, pct_change_replicate, tail_n,
      List.length_replicate, List.drop_replicate, series_mean_replicate_zero]
    norm_num [TechnicalAnalysis.empty, VolumeAnalysis.empty, BasicIndicators.empty,
      clamp01, pymax, pymin]
    simp <;> norm_num
  · norm_num [calculate_risk_score, cumprod_from, expanding_max, list_min,
      clamp01, pymax, pymin]
  · norm_num [calculate_volume_score, TechnicalAnalysis.empty, VolumeAnalysis.empty,
      clamp01, pymax, pymin]
    simp <;> norm_num

/-- C4 witness: the momentum conjunct at the flat series `[100, 100, 100]`. -/
theorem c4_amended_witness :
    calculate_momentum_score (List.replicate 3 100) (some TechnicalAnalysis.empty)
      = Except.ok 50 :=
  c4_amended.2.2.1 3 100 (by norm_num) (by norm_num)

/-- Whether a Python-level call completed without raising. -/
def is_ok : Except String ℚ → Bool
  | Except.ok _ => true
  | Except.error _ => false

/-- C5 counterexample: `_calculate_momentum_score` with a `None` technical
report raises `AttributeError` (line 217 calls `.get` on `None`) instead of
substituting defaults. -/
theorem c5_counterexample :
    calculate_momentum_score [100] none = Except.error "AttributeError" := rfl

/-- C5 amended: the technical and ML scorers tolerate missing input (50),
and all five scorers tolerate a present report with absent sub-mappings,
but the momentum and volume scorers raise `AttributeError` on a `None`
report (the exception is only caught by `generate_recommendation`). -/
theorem c5_amended :
    calculate_technical_score none = 50 ∧
    (∀ (p : ℚ) (h : ℕ), calculate_ml_score [] p h = 50) ∧
    (∀ (closes : List ℚ) (ta : TechnicalAnalysis),
      is_ok (calculate_momentum_score closes (some ta)) = true) ∧
    (∀ (cv av : ℚ) (ta : TechnicalAnalysis),
      is_ok (calculate_volume_score cv av (some ta)) = true) ∧
    is_ok (calculate_momentum_score [] none) = false ∧
    is_ok (calculate_volume_score 0 0 none) = false := by
  refine ⟨by decide, ?_, ?_, ?_, rfl, rfl⟩
  · intro p h
    simp [calculate_ml_score]
  · intro closes ta
    rfl
  · intro cv av ta
    rfl

/-- C9: when the price-history provider returns an empty series,
`generate_recommendation` returns `None` and fabricates nothing, whatever
the square-root and standard-deviation values are. -/
theorem c9_no_data (sqrt252 std_returns : ℚ) (env : Env) (h : ℕ)
    (he : env.history = []) :
    generate_recommendation sqrt252 std_returns env h = none := by
  simp [generate_recommendation, get_comprehensive_data, he]

def env0 : Env :=
  { history := []
    technical := none
    predict := fun _ => none
    projections := ⟨none⟩ }

/-- C9 witness: the empty-history environment at horizon 30. -/
theorem c9_no_data_witness : generate_recommendation 16 0 env0 30 = none :=
  c9_no_data 16 0 env0 30 rfl

/-- C1: every component scorer stays in [0,100]; the five synthesis weights
(0.35, 0.25, 0.20, 0.10, 0.10) sum to 1; and the weighted overall score of
any component scores in [0,100] again lies in [0,100]. -/
theorem c1_score_bounds :
    (∀ t, 0 ≤ calculate_technical_score t ∧ calculate_technical_score t ≤ 100) ∧
    (∀ (preds : List (ℕ × MLPrediction)) (p : ℚ) (h : ℕ),
      0 ≤ calculate_ml_score preds p h ∧ calculate_ml_score preds p h ≤ 100) ∧
    (∀ (closes : List ℚ) (t : Option TechnicalAnalysis) (q : ℚ),
      calculate_momentum_score closes t = Except.ok q → 0 ≤ q ∧ q ≤ 100) ∧
    (∀ (v s : ℚ) (r : List ℚ),
      0 ≤ calculate_risk_score v s r ∧ calculate_risk_score v s r ≤ 100) ∧
    (∀ (cv av : ℚ) (t : Option TechnicalAnalysis) (q : ℚ),
      calculate_volume_score cv av t = Except.ok q → 0 ≤ q ∧ q ≤ 100) ∧
    (weight_technical + weight_ml_prediction + weight_momentum
      + weight_risk + weight_volume = 1) ∧
    (∀ sc : Scores,
      0 ≤ sc.technical → sc.technical ≤ 100 →
      0 ≤ sc.ml_prediction → sc.ml_prediction ≤ 100 →
      0 ≤ sc.momentum → sc.momentum ≤ 100 →
      0 ≤ sc.risk → sc.risk ≤ 100 →
      0 ≤ sc.volume → sc.volume ≤ 100 →
      0 ≤ weighted_score sc ∧ weighted_score sc ≤ 100) := by
  refine ⟨?_, ?_, ?_, ?_, ?_, by norm_num [weight_technical, weight_ml_prediction,
    weight_momentum, weight_risk, weight_volume], ?_⟩
  · intro t
    match t with
    | none => exact ⟨by norm_num [calculate_technical_score], by norm_num [calculate_technical_score]⟩
    | some ta =>
      by_cases hta : ta.isEmpty
      · norm_num [calculate_technical_score, hta]
      · simp only [calculate_technical_score, hta]
        exact ⟨clamp01_nonneg _, clamp01_le_100 _⟩
  · intro preds p h
    unfold calculate_ml_score
    split
    · norm_num
    · split
      · norm_num
      · exact ⟨clamp01_nonneg _, clamp01_le_100 _⟩
  · intro closes t q hq
    match t with
    | none => simp [calculate_momentum_score] at hq
    | some ta =>
      simp only [calculate_momentum_score, Except.ok.injEq] at hq
      exact hq ▸ ⟨clamp01_nonneg _, clamp01_le_100 _⟩
  · intro v s r
    exact ⟨clamp01_nonneg _, clamp01_le_100 _⟩
  · intro cv av t q hq
    match t with
    | none => simp [calculate_volume_score] at hq
    | some ta =>
      simp only [calculate_volume_score, Except.ok.injEq] at hq
      exact hq ▸ ⟨clamp01_nonneg _, clamp01_le_100 _⟩
  · intro sc h1 h2 h3 h4 h5 h6 h7 h8 h9 h10
    unfold weighted_score weight_technical weight_ml_prediction weight_momentum
      weight_risk weight_volume
    constructor <;> linarith

/-- C1 witness: the momentum scorer on a concrete series and the weighted
score of concrete component scores. -/
theorem c1_score_bounds_witness :
    (0 ≤ (50 : ℚ) ∧ (50 : ℚ) ≤ 100) ∧
    (0 ≤ weighted_score ⟨100, 0, 100, 65, 80⟩ ∧ weighted_score ⟨100, 0, 100, 65, 80⟩ ≤ 100) :=
  ⟨c1_score_bounds.2.2.1 [100, 100, 100] (some TechnicalAnalysis.empty) 50
      (by norm_num [calculate_momentum_score, pct_change, tail_n, series_mean,
        TechnicalAnalysis.empty, VolumeAnalysis.empty, BasicIndicators.empty,
        clamp01, pymax, pymin]
          <;> simp <;> norm_num),
   c1_score_bounds.2.2.2.2.2.2 ⟨100, 0, 100, 65, 80⟩ (by norm_num) (by norm_num)
     (by norm_num) (by norm_num) (by norm_num) (by norm_num) (by norm_num)
     (by norm_num) (by norm_num) (by norm_num)⟩

/-- Confidence as a function of the action alone, as the spec words it. -/
def confidence_of_action : Action → Confidence
  | Action.strong_buy => Confidence.high
  | Action.strong_sell => Confidence.high
  | Action.buy => Confidence.medium_high
  | Action.sell => Confidence.medium_high
  | _ => Confidence.medium

/-- C2: the action ladder is exactly the stated half-open threshold bands,
boundary values resolving to the higher tier, and the per-branch confidence
assignment factors through the action. -/
theorem c2_action_thresholds (w : ℚ) :
    (action_of w = Action.strong_buy ↔ 75 ≤ w) ∧
    (action_of w = Action.buy ↔ 60 ≤ w ∧ w < 75) ∧
    (action_of w = Action.weak_buy ↔ 55 ≤ w ∧ w < 60) ∧
    (action_of w = Action.hold ↔ 45 ≤ w ∧ w < 55) ∧
    (action_of w = Action.weak_sell ↔ 40 ≤ w ∧ w < 45) ∧
    (action_of w = Action.sell ↔ 25 ≤ w ∧ w < 40) ∧
    (action_of w = Action.strong_sell ↔ w < 25) ∧
    confidence_of_branch w = confidence_of_action (action_of w) := by
  unfold action_of confidence_of_branch
  split_ifs with h1 h2 h3 h4 h5 h6 <;>
    refine ⟨?_, ?_, ?_, ?_, ?_, ?_, ?_, rfl⟩ <;>
    (try simp) <;>
    first
      | linarith
      | (constructor <;> linarith)
      | (intro hx; linarith)

/-- C8 counterexample: at strength 0.59 with direction `'up'`, the trend
block adds `int(0.59 × 20) = 11` points relative to a neutral direction,
not `round(0.59 × 20) = 12` as the claim states. -/
theorem c8_counterexample :
    technical_score_raw ⟨none, some ⟨some "up", some (59/100)⟩, none, none⟩
        - technical_score_raw ⟨none, some ⟨some "neutral", some (59/100)⟩, none, none⟩
      ≠ ((round ((59 : ℚ)/100 * 20) : ℤ) : ℚ) := by
  have hr : round ((59 : ℚ)/100 * 20) = 12 := by
    rw [round_eq]
    norm_num
  rw [hr]
  norm_num [technical_score_raw, rsi_points, macd_points, trend_points,
    resistance_points, support_points, BasicIndicators.empty,
    TrendAnalysis.empty, SupportResistance.empty, pyInt]
  simp
  norm_num [Int.floor_eq_iff]

/-- Report transformer replacing only the trend sub-dict. -/
def set_trend (t : TechnicalAnalysis) (d : Option String) (s : Option ℚ) :
    TechnicalAnalysis :=
  { t with trend_analysis := some ⟨d, s⟩ }

/-- C8 amended: for strength in [0,1], direction `'up'` adds
`int(strength × 20) = ⌊strength × 20⌋` points (Python truncation, not
rounding), `'down'` subtracts the same, and a neutral direction changes
nothing, all other report fields held fixed. -/
theorem c8_amended (t : TechnicalAnalysis) (s : ℚ) (h0 : 0 ≤ s) (h1 : s ≤ 1) :
    technical_score_raw (set_trend t (some "up") (some s))
        = technical_score_raw (set_trend t (some "neutral") (some s))
          + ((⌊s * 20⌋ : ℤ) : ℚ) ∧
    technical_score_raw (set_trend t (some "down") (some s))
        = technical_score_raw (set_trend t (some "neutral") (some s))
          - ((⌊s * 20⌋ : ℤ) : ℚ) := by
  have hmul : (0 : ℚ) ≤ s * 20 := by nlinarith
  have hup : trend_points ⟨some "up", some s⟩ = ((⌊s * 20⌋ : ℤ) : ℚ) := by
    simp [trend_points, pyInt, hmul]
  have hdown : trend_points ⟨some "down", some s⟩ = -((⌊s * 20⌋ : ℤ) : ℚ) := by
    simp [trend_points, pyInt, hmul]
  have hneutral : trend_points ⟨some "neutral", some s⟩ = 0 := by
    simp [trend_points]
  constructor <;>
    simp only [technical_score_raw, set_trend, Option.getD_some, hup, hdown, hneutral] <;>
    ring

/-- C8 witness: the amended trend contribution at strength 0.59. -/
theorem c8_amended_witness :
    technical_score_raw (set_trend TechnicalAnalysis.empty (some "up") (some (59/100)))
        = technical_score_raw (set_trend TechnicalAnalysis.empty (some "neutral") (some (59/100)))
          + ((⌊(59 : ℚ)/100 * 20⌋ : ℤ) : ℚ) :=
  (c8_amended TechnicalAnalysis.empty (59/100) (by norm_num) (by norm_num)).1

/-- A strongly bullish technical report: RSI 25, MACD above signal, trend up
at full strength, resistance about 17% above the last close, support just
below it, volume confirming. -/
def T3 : TechnicalAnalysis :=
  { basic_indicators := some ⟨some 25, some 1, some 0, some 1, some 1⟩
    trend_analysis := some ⟨some "up", some 1⟩
    support_resistance := some ⟨some (2566179/10), some [300000], some [255000]⟩
    volume_analysis := some ⟨some "increasing", some "bullish", some true⟩ }

/-- An environment whose non-ML signals are strongly bullish while the only
ML prediction forecasts a near-total loss: the weighted score still lands
in the BUY band, but the target price falls below the current price.  The
history's returns are (1/20, 1/20, 1/10, 3/20, 3/20), whose sample
variance is exactly (1/20)², so the standard deviation the source computes
at line 77 is the rational 1/20. -/
def env3 : Env :=
  { history := [(160000, 10), (168000, 10), (176400, 10), (194040, 10),
      (223146, 10), (2566179/10, 10)]
    technical := some T3
    predict := fun d => if d = 30 then some ⟨some 50, some 1⟩ else none
    projections := ⟨none⟩ }

/-- The analysis bundle the data-gathering step assembles from `env3` with
`sqrt252 = 15.87` and the history's true standard deviation 1/20. -/
def data3 : AnalysisData :=
  { closes := [160000, 168000, 176400, 194040, 223146, 2566179/10]
    current_price := 2566179/10
    current_volume := 10
    avg_volume := 0
    volatility := 1587/2000
    sharpe_ratio := 16800/529
    returns := [1/20, 1/20, 1/10, 3/20, 3/20]
    technical_analysis := some T3
    ml_predictions := [(30, ⟨some 50, some 1⟩)]
    projections := ⟨none⟩ }

/-- C3 counterexample: on `env3` the pipeline produces a BUY recommendation
with a negative risk-reward ratio, refuting `risk_reward_ratio ≥ 0` for
every produced recommendation.  The last two conjuncts certify that the
standard-deviation argument 1/20 is exactly the nonnegative square root of
the sample variance of the history's returns, as lines 76-77 compute it. -/
theorem c3_counterexample :
    ((generate_recommendation (1587/100) (1/20) env3 30).map
        Recommendation.risk_reward).getD 0 < 0 ∧
    (generate_recommendation (1587/100) (1/20) env3 30).map Recommendation.action
        = some Action.buy ∧
    sample_variance (pct_change (env3.history.map Prod.fst)) = (1/20 : ℚ) ^ 2 ∧
    (0 : ℚ) ≤ 1/20 := by
  have hdata : get_comprehensive_data (1587/100) (1/20) env3 30 = some data3 := by
    norm_num [get_comprehensive_data, env3, T3, data3, build_ml_predictions,
      rolling_avg_volume, pct_change, series_mean]
    intro hc
    simp at hc
  have htech : calculate_technical_score (some T3) = 100 := by
    norm_num [calculate_technical_score, T3, TechnicalAnalysis.isEmpty,
      technical_score_raw, rsi_points, macd_points, trend_points,
      resistance_points, support_points, pyInt, clamp01, pymax, pymin]
  have hml : calculate_ml_score [(30, ⟨some 50, some 1⟩)] (2566179/10) 30 = 0 := by
    norm_num [calculate_ml_score, best_prediction, sort_keys, insert_sorted,
      dict_keys, dict_get, clamp01, pymax, pymin, List.find?]
  have hmom : calculate_momentum_score
      [160000, 168000, 176400, 194040, 223146, 2566179/10] (some T3)
        = Except.ok 100 := by
    norm_num [calculate_momentum_score, T3, pct_change, tail_n, series_mean,
      BasicIndicators.empty, VolumeAnalysis.empty, clamp01, pymax, pymin]
  have hrisk : calculate_risk_score (1587/2000) (16800/529)
      [1/20, 1/20, 1/10, 3/20, 3/20] = 65 := by
    norm_num [calculate_risk_score, cumprod_from, running_max_from,
      expanding_max, list_min, clamp01, pymax, pymin]
  have hvol : calculate_volume_score 10 0 (some T3) = Except.ok 80 := by
    norm_num [calculate_volume_score, T3, VolumeAnalysis.empty, clamp01,
      pymax, pymin]
  have hscores : calculate_scores data3 30 = Except.ok ⟨100, 0, 100, 65, 80⟩ := by
    simp only [calculate_scores, data3, htech, hml, hmom, hrisk, hvol]
    rfl
  have hw : weighted_score ⟨100, 0, 100, 65, 80⟩ = 139/2 := by
    norm_num [weighted_score, weight_technical, weight_ml_prediction,
      weight_momentum, weight_risk, weight_volume]
  have hfinal :
      (generate_final_recommendation (1587/100) ⟨100, 0, 100, 65, 80⟩ data3 30).risk_reward
        < 0 := by
    norm_num [generate_final_recommendation, hw, action_of, Action.is_buy_side,
      calculate_target_price, target_after_ml, argmin_abs, nat_dist, dict_keys,
      dict_get, calculate_stop_loss, data3, T3, TechnicalAnalysis.isEmpty,
      pymax, pymin, List.find?]
  have haction :
      (generate_final_recommendation (1587/100) ⟨100, 0, 100, 65, 80⟩ data3 30).action
        = Action.buy := by
    norm_num [generate_final_recommendation, hw, action_of]
  refine ⟨?_, ?_, ?_, by norm_num⟩
  · unfold generate_recommendation
    rw [hdata]
    dsimp only
    rw [hscores]
    dsimp only
    simpa using hfinal
  · unfold generate_recommendation
    rw [hdata]
    dsimp only
    rw [hscores]
    dsimp only
    simpa using haction
  · norm_num [env3, pct_change, sample_variance, series_mean]

/-- C3 amended: the risk-reward ratio is 0 whenever the action is not a
buy-side tier or the current price is at or below the stop loss, and it is
nonnegative whenever the target price is at or above the current price; a
buy-side recommendation whose target falls below the current price can have
a negative ratio. -/
theorem c3_amended (sqrt252 : ℚ) (scores : Scores) (data : AnalysisData)
    (h : ℕ) :
    ((generate_final_recommendation sqrt252 scores data h).action.is_buy_side = false ∨
        (generate_final_recommendation sqrt252 scores data h).current_price
          ≤ (generate_final_recommendation sqrt252 scores data h).stop_loss →
      (generate_final_recommendation sqrt252 scores data h).risk_reward = 0) ∧
    ((generate_final_recommendation sqrt252 scores data h).current_price
        ≤ (generate_final_recommendation sqrt252 scores data h).target_price →
      0 ≤ (generate_final_recommendation sqrt252 scores data h).risk_reward) := by
  dsimp only [generate_final_recommendation]
  constructor
  · rintro (hb | hle)
    · simp [hb]
    · rw [if_neg (not_lt.mpr hle)]
      simp
  · intro ht
    split_ifs with h1 h2
    · apply div_nonneg
      · linarith
      · linarith
    · norm_num
    · norm_num

/-- A minimal analysis bundle for the C3 witness. -/
def data0 : AnalysisData :=
  { closes := [100]
    current_price := 100
    current_volume := 0
    avg_volume := 0
    volatility := 0
    sharpe_ratio := 0
    returns := []
    technical_analysis := none
    ml_predictions := []
    projections := ⟨none⟩ }

/-- C3 witness: a non-buy recommendation has ratio 0, and a buy
recommendation whose target is above the current price has a nonnegative
ratio. -/
theorem c3_amended_witness :
    (generate_final_recommendation 16 ⟨40, 40, 40, 40, 40⟩ data0 30).risk_reward = 0 ∧
    0 ≤ (generate_final_recommendation 16 ⟨60, 60, 60, 60, 60⟩ data0 30).risk_reward :=
  ⟨(c3_amended 16 ⟨40, 40, 40, 40, 40⟩ data0 30).1
      (Or.inl (by norm_num [generate_final_recommendation, weighted_score,
        weight_technical, weight_ml_prediction, weight_momentum, weight_risk,
        weight_volume, action_of, Action.is_buy_side]
        <;> simp)),
   (c3_amended 16 ⟨60, 60, 60, 60, 60⟩ data0 30).2
      (by norm_num [generate_final_recommendation, weighted_score,
        weight_technical, weight_ml_prediction, weight_momentum, weight_risk,
        weight_volume, calculate_target_price, target_after_ml, argmin_abs,
        dict_keys, data0, pymin])⟩

/-! Lemmas about the insertion sort used for `sorted(ml_predictions.keys())`. -/

theorem mem_insert_sorted (a b : ℕ) (l : List ℕ) :
    b ∈ insert_sorted a l ↔ b = a ∨ b ∈ l := by
  induction l with
  | nil => simp [insert_sorted]
  | cons c rest ih =>
    simp only [insert_sorted]
    split
    · simp only [List.mem_cons]
      try tauto
    · simp only [List.mem_cons, ih]
      try tauto

theorem pairwise_insert_sorted (a : ℕ) (l : List ℕ)
    (h : l.Pairwise (· ≤ ·)) :
    (insert_sorted a l).Pairwise (· ≤ ·) := by
  induction l with
  | nil => simp [insert_sorted]
  | cons c rest ih =>
    rw [List.pairwise_cons] at h
    obtain ⟨hc, hrest⟩ := h
    simp only [insert_sorted]
    by_cases hac : a ≤ c
    · rw [if_pos hac, List.pairwise_cons]
      refine ⟨?_, List.pairwise_cons.mpr ⟨hc, hrest⟩⟩
      intro x hx
      rcases List.mem_cons.mp hx with rfl | hx2
      · exact hac
      · exact le_trans hac (hc x hx2)
    · rw [if_neg hac, List.pairwise_cons]
      refine ⟨?_, ih hrest⟩
      intro x hx
      rcases (mem_insert_sorted a x rest).mp hx with rfl | hx2
      · omega
      · exact hc x hx2

theorem mem_sort_keys (b : ℕ) (l : List ℕ) : b ∈ sort_keys l ↔ b ∈ l := by
  induction l with
  | nil => simp [sort_keys]
  | cons a rest ih => simp [sort_keys, mem_insert_sorted, ih]

theorem sorted_sort_keys (l : List ℕ) : (sort_keys l).Pairwise (· ≤ ·) := by
  induction l with
  | nil => simp [sort_keys]
  | cons a rest ih => exact pairwise_insert_sorted a _ ih

/-- The selection loop keeps reassigning `best`, so it ends at the last
qualifying key of the iteration order. -/
theorem foldl_best_eq (f : ℕ → Option MLPrediction) (h : ℕ) :
    ∀ (l : List ℕ) (acc : Option MLPrediction),
      l.foldl (fun best k => if k ≤ h then f k else best) acc
        = ((l.filter (fun k => decide (k ≤ h))).getLast?).elim acc f := by
  intro l
  induction l with
  | nil => intro acc; rfl
  | cons a rest ih =>
    intro acc
    by_cases ha : a ≤ h
    · rw [List.foldl_cons, if_pos ha, ih,
        List.filter_cons_of_pos (by simpa using ha)]
      cases hr : rest.filter (fun k => decide (k ≤ h)) with
      | nil => simp [hr]
      | cons b t =>
        rw [List.getLast?_cons_cons]
        cases hg : (b :: t).getLast? with
        | none => simp at hg
        | some x => rfl
    · rw [List.foldl_cons, if_neg ha, ih,
        List.filter_cons_of_neg (by simpa using ha)]

/-- In an ascending list whose members are all at most `m`, with `m` a
member, the last element is `m`. -/
theorem getLast_of_sorted_max :
    ∀ l : List ℕ, l.Pairwise (· ≤ ·) → ∀ m, m ∈ l → (∀ x ∈ l, x ≤ m) →
      l.getLast? = some m := by
  intro l
  induction l with
  | nil => intro _ m hm _; cases hm
  | cons a rest ih =>
    intro hp m hm hb
    rw [List.pairwise_cons] at hp
    obtain ⟨ha, hrest⟩ := hp
    cases rest with
    | nil =>
      rcases List.mem_cons.mp hm with rfl | h2
      · simp
      · cases h2
    | cons b t =>
      rw [List.getLast?_cons_cons]
      have hm2 : m ∈ b :: t := by
        rcases List.mem_cons.mp hm with rfl | h2
        · have hbm : b ≤ m := hb b (List.mem_cons_of_mem m (List.mem_cons_self b t))
          have hmb : m ≤ b := ha b (List.mem_cons_self b t)
          exact List.mem_cons.mpr (Or.inl (le_antisymm hmb hbm))
        · exact h2
      exact ih hrest m hm2 (fun x hx => hb x (List.mem_cons_of_mem a hx))

/-- C6: the ML scorer returns 50 when the predictions dict is empty, the
current price is nonpositive, or no horizon key qualifies; otherwise it
selects the prediction at the largest key at or below the horizon and
returns the clamped, confidence-shrunk score. -/
theorem c6_ml_score_spec (preds : List (ℕ × MLPrediction)) (cur : ℚ) (h : ℕ) :
    (preds = [] ∨ cur ≤ 0 → calculate_ml_score preds cur h = 50) ∧
    ((∀ k ∈ dict_keys preds, ¬ k ≤ h) → calculate_ml_score preds cur h = 50) ∧
    (∀ (m : ℕ) (bp : MLPrediction) (pp c : ℚ), 0 < cur →
      m ∈ dict_keys preds → m ≤ h →
      (∀ k ∈ dict_keys preds, k ≤ h → k ≤ m) →
      dict_get preds m = some bp → bp.predicted_price = some pp →
      bp.confidence = some c →
      calculate_ml_score preds cur h
        = clamp01 (50 + (pp - cur) / cur * 250 * c)) := by
  refine ⟨?_, ?_, ?_⟩
  · intro hc
    unfold calculate_ml_score
    rw [if_pos hc]
  · intro hk
    by_cases hc : preds = [] ∨ cur ≤ 0
    · unfold calculate_ml_score
      rw [if_pos hc]
    · unfold calculate_ml_score
      rw [if_neg hc]
      have hbp : best_prediction preds h = none := by
        unfold best_prediction
        rw [foldl_best_eq]
        have hnil : (sort_keys (dict_keys preds)).filter (fun k => decide (k ≤ h)) = [] := by
          apply List.filter_eq_nil_iff.mpr
          intro a hmem
          simpa using hk a ((mem_sort_keys a _).mp hmem)
        rw [hnil]
        rfl
      rw [hbp]
  · intro m bp pp c hcur hm hmh hmax hget hpp hconf
    have hne : ¬(preds = [] ∨ cur ≤ 0) := by
      rintro (h1 | h2)
      · rw [h1] at hm
        cases hm
      · linarith
    have hbp : best_prediction preds h = some bp := by
      unfold best_prediction
      rw [foldl_best_eq]
      have hlast :
          ((sort_keys (dict_keys preds)).filter (fun k => decide (k ≤ h))).getLast?
            = some m := by
        apply getLast_of_sorted_max
        · exact List.Pairwise.filter _ (sorted_sort_keys _)
        · exact List.mem_filter.mpr ⟨(mem_sort_keys m _).mpr hm, by simpa using hmh⟩
        · intro x hx
          obtain ⟨hx1, hx2⟩ := List.mem_filter.mp hx
          exact hmax x ((mem_sort_keys x _).mp hx1) (by simpa using hx2)
      rw [hlast]
      exact hget
    unfold calculate_ml_score
    rw [if_neg hne, hbp]
    dsimp only
    rw [hpp, hconf]
    dsimp only [Option.getD]
    congr 1
    ring

def preds6 : List (ℕ × MLPrediction) :=
  [(7, ⟨some 110, some (1/2)⟩), (14, ⟨some 120, some (3/4)⟩)]

/-- C6 witness: horizon 10 selects the key-7 prediction of `preds6`. -/
theorem c6_ml_score_witness :
    calculate_ml_score preds6 100 10
      = clamp01 (50 + ((110 : ℚ) - 100) / 100 * 250 * (1/2)) :=
  (c6_ml_score_spec preds6 100 10).2.2 7 ⟨some 110, some (1/2)⟩ 110 (1/2)
    (by norm_num) (by simp [preds6, dict_keys]) (by norm_num)
    (by simp [preds6, dict_keys] <;> omega)
    (by simp [preds6, dict_get, List.find?]) rfl rfl

/-- The running minimizer of `min(keys, key=lambda x: abs(x - horizon))`:
it is one of the candidates and its distance is minimal. -/
theorem foldl_argmin_spec (h : ℕ) :
    ∀ (l : List ℕ) (b : ℕ),
      (l.foldl (fun best k2 => if nat_dist k2 h < nat_dist best h then k2 else best) b) ∈ b :: l ∧
      nat_dist (l.foldl (fun best k2 => if nat_dist k2 h < nat_dist best h then k2 else best) b) h
          ≤ nat_dist b h ∧
      ∀ k ∈ l,
        nat_dist (l.foldl (fun best k2 => if nat_dist k2 h < nat_dist best h then k2 else best) b) h
          ≤ nat_dist k h := by
  intro l
  induction l with
  | nil =>
    intro b
    refine ⟨List.mem_cons_self b [], le_refl _, ?_⟩
    intro k hk
    cases hk
  | cons a rest ih =>
    intro b
    rw [List.foldl_cons]
    by_cases hab : nat_dist a h < nat_dist b h
    · rw [if_pos hab]
      obtain ⟨h1, h2, h3⟩ := ih a
      refine ⟨?_, le_trans h2 (le_of_lt hab), ?_⟩
      · rcases List.mem_cons.mp h1 with he | hmem
        · rw [he]
          exact List.mem_cons_of_mem b (List.mem_cons_self a rest)
        · exact List.mem_cons_of_mem b (List.mem_cons_of_mem a hmem)
      · intro k hk
        rcases List.mem_cons.mp hk with rfl | hk2
        · exact h2
        · exact h3 k hk2
    · rw [if_neg hab]
      obtain ⟨h1, h2, h3⟩ := ih b
      refine ⟨?_, h2, ?_⟩
      · rcases List.mem_cons.mp h1 with he | hmem
        · rw [he]
          exact List.mem_cons_self b (a :: rest)
        · exact List.mem_cons_of_mem b (List.mem_cons_of_mem a hmem)
      · intro k hk
        rcases List.mem_cons.mp hk with rfl | hk2
        · exact le_trans h2 (not_lt.mp hab)
        · exact h3 k hk2

/-- When every key is at or below the horizon, the nearest key to the
horizon is the largest one. -/
theorem argmin_abs_eq_max (keys : List ℕ) (h m : ℕ)
    (hall : ∀ k ∈ keys, k ≤ h) (hm : m ∈ keys)
    (hmax : ∀ k ∈ keys, k ≤ m) :
    argmin_abs keys h = some m := by
  cases keys with
  | nil => cases hm
  | cons k0 rest =>
    show some (rest.foldl
      (fun best k2 => if nat_dist k2 h < nat_dist best h then k2 else best) k0) = some m
    obtain ⟨h1, h2, h3⟩ := foldl_argmin_spec h rest k0
    congr 1
    generalize hR : rest.foldl
      (fun best k2 => if nat_dist k2 h < nat_dist best h then k2 else best) k0 = r at h1 h2 h3 ⊢
    have hrk : r ≤ h := hall r h1
    have hmk : m ≤ h := hall m hm
    have hrm : r ≤ m := hmax r h1
    have hdist : nat_dist r h ≤ nat_dist m h := by
      rcases List.mem_cons.mp hm with rfl | hmem
      · exact h2
      · exact h3 m hmem
    simp only [nat_dist] at hdist
    omega

/-- C7: whenever the predictions dict is non-empty with all horizon keys at
or below the requested horizon (as the gathering loop guarantees), the
running target, starting at the current price, is averaged with the
predicted price of the prediction at the largest such key. -/
theorem c7_target_ml (data : AnalysisData) (h m : ℕ) (p : MLPrediction)
    (pp : ℚ)
    (hall : ∀ k ∈ dict_keys data.ml_predictions, k ≤ h)
    (hm : m ∈ dict_keys data.ml_predictions)
    (hmax : ∀ k ∈ dict_keys data.ml_predictions, k ≤ m)
    (hget : dict_get data.ml_predictions m = some p)
    (hpp : p.predicted_price = some pp) :
    target_after_ml data h = (data.current_price + pp) / 2 := by
  unfold target_after_ml
  rw [argmin_abs_eq_max _ h m hall hm hmax]
  dsimp only
  rw [hget]
  dsimp only
  rw [hpp]
  rfl

def data7 : AnalysisData :=
  { closes := [100]
    current_price := 100
    current_volume := 0
    avg_volume := 0
    volatility := 0
    sharpe_ratio := 0
    returns := []
    technical_analysis := none
    ml_predictions := [(7, ⟨some 104, some 1⟩), (30, ⟨some 112, some 1⟩)]
    projections := ⟨none⟩ }

/-- C7 witness: at horizon 30 the key-30 prediction of `data7` is averaged
with the current price. -/
theorem c7_target_ml_witness :
    target_after_ml data7 30 = ((100 : ℚ) + 112) / 2 :=
  c7_target_ml data7 30 30 ⟨some 112, some 1⟩ 112
    (by simp [data7, dict_keys] <;> omega)
    (by simp [data7, dict_keys])
    (by simp [data7, dict_keys] <;> omega)
    (by simp [data7, dict_get, List.find?]) rfl

/-- The gathering loop of lines 60-65 only stores predictions whose horizon
key is at or below the requested horizon, which justifies the hypotheses of
the C7 statement for every bundle the pipeline builds. -/
theorem keys_le_foldl (env : Env) (h : ℕ) :
    ∀ (l : List ℕ) (acc : List (ℕ × MLPrediction)),
      (∀ k ∈ dict_keys acc, k ≤ h) →
      ∀ k ∈ dict_keys (l.foldl (fun acc2 days =>
          if days ≤ h then
            match env.predict days with
            | some p => acc2 ++ [(days, p)]
            | none => acc2
          else acc2) acc), k ≤ h := by
  intro l
  induction l with
  | nil => intro acc hacc; exact hacc
  | cons d rest ih =>
    intro acc hacc
    rw [List.foldl_cons]
    apply ih
    by_cases hd : d ≤ h
    · rw [if_pos hd]
      cases hp : env.predict d with
      | none => exact hacc
      | some p =>
        intro k hk
        simp only [dict_keys, List.map_append, List.mem_append] at hk
        rcases hk with hk1 | hk2
        · exact hacc k hk1
        · simp at hk2
          omega
    · rw [if_neg hd]
      exact hacc

theorem build_ml_predictions_keys_le (env : Env) (h : ℕ) :
    ∀ k ∈ dict_keys (build_ml_predictions env h), k ≤ h := by
  intro k hk
  exact keys_le_foldl env h [7, 14, 30, 60, 90] []
    (by simp [dict_keys]) k hk

end TradingRec
